import Mathlib

/-!
Verification of `src/ersilia/core/tracking.py` (run-tracking engine).

The Python module is embedded shallowly: dataframes become lists of named,
typed columns whose cells are `Option ℚ` (with `none` standing for a
null/NaN cell), pandas dtypes become the inductive `Dtype`, Python
exceptions become an explicit `Except TrackErr` codomain, and numpy float
results that can be infinite become the inductive `PyFloat`.
-/

namespace Tracking

/-- Python exceptions that the embedded fragments of `tracking.py` can raise.
Note the module defines no exception classes of its own; these are the
built-in exceptions its operations can produce. -/
inductive TrackErr
  | keyError
  | indexError
  | typeError
deriving DecidableEq

/-- Pandas column dtypes that matter to `tracking.py`: `float64`, `int64`,
and the catch-all `object` dtype (e.g. string columns). -/
inductive Dtype
  | float64
  | int64
  | object
deriving DecidableEq

/-- One dataframe column: a name, an inferred dtype, and cells.
A cell of `none` models a null/NaN entry. -/
structure Column where
  name : String
  dtype : Dtype
  values : List (Option ℚ)
deriving DecidableEq

/-- A pandas dataframe, as an ordered list of columns. -/
structure DFrame where
  cols : List Column
deriving DecidableEq

/-- The model metadata dictionary as used by `check_types`:
`metadata["Output Type"]` is a list of type labels (the code reads its
first element) and `metadata["Output Shape"]` is a string. -/
structure Metadata where
  outputType : List String
  outputShape : String
deriving DecidableEq

/-- The non-identifier columns of a dataframe: every column whose name is
neither `key` nor `input` (`resultDf.loc[:, ~resultDf.columns.isin(["key", "input"])]`,
and likewise `dat.drop(["key", "input"], axis=1)` keeps exactly these). -/
def nonIdCols (df : DFrame) : List Column :=
  df.cols.filter (fun c => c.name ≠ "key" ∧ c.name ≠ "input")

/-- The dict `typeDict = {"float64": "Float", "int64": "Int"}` of
`check_types`, line 165: indexing with any other dtype raises `KeyError`. -/
def typeDict : Dtype → Except TrackErr String
  | Dtype.float64 => Except.ok "Float"
  | Dtype.int64 => Except.ok "Int"
  | Dtype.object => Except.error TrackErr.keyError

/-- The canonical label of a numeric dtype (`Float` for `float64`, `Int`
for `int64`); the `object` dtype has no canonical label. -/
def canonLabel : Dtype → String
  | Dtype.float64 => "Float"
  | Dtype.int64 => "Int"
  | Dtype.object => "object"

/-- The expression `metadata["Output Type"][0]` of `check_types`, line 172:
indexing an empty list raises `IndexError`. -/
def outputTypeHead (md : Metadata) : Except TrackErr String :=
  match md.outputType with
  | [] => Except.error TrackErr.indexError
  | t :: _ => Except.ok t

/-- The counting loop of `check_types`, lines 171-173: for each dtype,
look up its label in `typeDict` (may raise `KeyError`), read
`metadata["Output Type"][0]` (may raise `IndexError`), and bump the count
when the two differ. -/
def countMismatched : List Dtype → Metadata → ℕ → Except TrackErr ℕ
  | [], _, acc => Except.ok acc
  | d :: rest, md, acc =>
    match typeDict d with
    | Except.error e => Except.error e
    | Except.ok lbl =>
      match outputTypeHead md with
      | Except.error e => Except.error e
      | Except.ok t => countMismatched rest md (if lbl ≠ t then acc + 1 else acc)

/-- The shape branch of `check_types`, lines 175-183: more than one
non-identifier column demands shape `List`, exactly one demands `Single`,
and anything else (including zero columns) falls through to `True`. -/
def shapeCheck (n : ℕ) (shape : String) : Bool :=
  if 1 < n ∧ shape ≠ "List" then false
  else if n = 1 ∧ shape ≠ "Single" then false
  else true

/-- The dict returned by `check_types`, line 187. -/
structure CheckTypesResult where
  mismatchedTypes : ℕ
  correctShape : Bool
deriving DecidableEq

/-- `RunTracker.check_types(resultDf, metadata)`, lines 164-187. -/
def check_types (df : DFrame) (md : Metadata) : Except TrackErr CheckTypesResult :=
  match countMismatched ((nonIdCols df).map Column.dtype) md 0 with
  | Except.error e => Except.error e
  | Except.ok count =>
    Except.ok ⟨count, shapeCheck ((nonIdCols df).map Column.dtype).length md.outputShape⟩

/-- The non-null cells of a column, in order (pandas statistics skip NaN). -/
def nonNullValues (c : Column) : List ℚ :=
  c.values.filterMap id

/-- `Series.mean()`: arithmetic mean of the non-null values, NaN (here
`none`) when there are none. -/
def listMean (xs : List ℚ) : Option ℚ :=
  if xs.length = 0 then none else some (xs.sum / xs.length)

/-- `Series.min()` over non-null values (`none` when empty). -/
def listMin : List ℚ → Option ℚ
  | [] => none
  | x :: rest =>
    match listMin rest with
    | none => some x
    | some m => some (min x m)

/-- `Series.max()` over non-null values (`none` when empty). -/
def listMax : List ℚ → Option ℚ
  | [] => none
  | x :: rest =>
    match listMax rest with
    | none => some x
    | some m => some (max x m)

/-- `Series.mode()`: the distinct values attaining the maximum frequency. -/
def modeList (xs : List ℚ) : List ℚ :=
  xs.dedup.filter (fun v => xs.dedup.all (fun w => decide (xs.count w ≤ xs.count v)))

/-- Lines 138-141 of `stats`: the mode is reported only when
`len(dat[column].mode()) == 1`, otherwise `None`. -/
def modeOpt (xs : List ℚ) : Option ℚ :=
  match modeList xs with
  | [v] => some v
  | _ => none

/-- The sample variance with N-1 denominator; `Series.std()` (default
`ddof=1`) is its square root. -/
def sampleVariance (xs : List ℚ) : ℚ :=
  ((xs.map (fun x => (x - xs.sum / xs.length) ^ 2)).sum) / ((xs.length : ℚ) - 1)

/-- The per-column statistics record built by `stats`, lines 136-144.
`var` is the sample variance underlying `Series.std()`; it is `none`
exactly when pandas would report NaN (fewer than two non-null values). -/
structure ColStats where
  mean : Option ℚ
  mode : Option ℚ
  min : Option ℚ
  max : Option ℚ
  var : Option ℚ
deriving DecidableEq

/-- The statistics of one column over its non-null values. -/
def colStats (c : Column) : ColStats :=
  ⟨listMean (nonNullValues c), modeOpt (nonNullValues c),
    listMin (nonNullValues c), listMax (nonNullValues c),
    if 2 ≤ (nonNullValues c).length then some (sampleVariance (nonNullValues c)) else none⟩

/-- The `std` entry of a column's statistics: `Series.std()` is the square
root of the sample variance (NaN, i.e. `none`, below two values). -/
noncomputable def colStd (c : Column) : Option ℝ :=
  ((colStats c).var).map (fun q => Real.sqrt (q : ℝ))

/-- `RunTracker.stats(result)`, lines 123-148: `dat.drop(["key", "input"], axis=1)`
raises `KeyError` when either label is absent; otherwise statistics are
computed for every remaining column in order. -/
def stats (df : DFrame) : Except TrackErr (List (String × ColStats)) :=
  if "key" ∈ df.cols.map Column.name ∧ "input" ∈ df.cols.map Column.name then
    Except.ok ((nonIdCols df).map (fun c => (c.name, colStats c)))
  else Except.error TrackErr.keyError

/-- A numpy float64 result: finite, infinite, or NaN. -/
inductive PyFloat
  | fin (q : ℚ)
  | posInf
  | negInf
  | nan
deriving DecidableEq

/-- Division of a numpy float64 by a Python int (the row count): numpy
follows IEEE semantics, so a zero divisor yields an infinity (or NaN for
0/0) together with a `RuntimeWarning`; no exception is raised. -/
def npDivByLen (q : ℚ) (n : ℕ) : PyFloat :=
  if n = 0 then
    if 0 < q then PyFloat.posInf
    else if q < 0 then PyFloat.negInf
    else PyFloat.nan
  else PyFloat.fin (q / n)

/-- The dict returned by `get_file_sizes`, lines 157-162. -/
structure FileSizes where
  input_size : ℚ
  output_size : ℚ
  avg_input_size : PyFloat
  avg_output_size : PyFloat
deriving DecidableEq

/-- `RunTracker.get_file_sizes(input_df, output_df)`, lines 150-162,
parameterised by the measured `memory_usage(deep=True).sum()` byte totals
and the row counts of the two dataframes. -/
def get_file_sizes (inputBytes outputBytes : ℚ) (inputLen outputLen : ℕ) : FileSizes :=
  ⟨inputBytes / 1024, outputBytes / 1024,
    npDivByLen (inputBytes / 1024) inputLen,
    npDivByLen (outputBytes / 1024) outputLen⟩

/-- The run tracker's profiling state: `__init__` (lines 106-108) sets
`time_start = None` and `memory_usage_start = 0`. -/
structure RunTracker where
  time_start : Option ℚ
  memory_usage_start : ℤ
deriving DecidableEq

/-- `RunTracker.__init__`, lines 106-108. -/
def RunTracker.init : RunTracker :=
  ⟨none, 0⟩

/-- `RunTracker.start_tracking`, lines 111-114, given the current clock
and the currently traced memory. -/
def start_tracking (now : ℚ) (tracedCurrent : ℤ) : RunTracker :=
  ⟨some now, tracedCurrent⟩

/-- The elapsed-time query `datetime.now() - self.time_start` performed in
`track`, line 212: subtracting `None` from a datetime raises `TypeError`. -/
def elapsed_time (t : RunTracker) (now : ℚ) : Except TrackErr ℚ :=
  match t.time_start with
  | none => Except.error TrackErr.typeError
  | some s => Except.ok (now - s)

/-- `RunTracker.get_peak_memory`, lines 189-194, given the traced peak
(`tracemalloc.get_traced_memory()[1]`, which is `0` when tracing was never
started): it always returns `peak - memory_usage_start` and never raises. -/
def get_peak_memory (t : RunTracker) (tracedPeak : ℤ) : Except TrackErr ℤ :=
  Except.ok (tracedPeak - t.memory_usage_start)

/-- The header line written by `open_persistent_file`, line 43. -/
def sessionHeader (modelId : String) : String :=
  "Session started for model: " ++ modelId

/-- `open_persistent_file(model_id)`, lines 41-43: the session file is
(re)created holding only the header line. The file is modelled as
`Option (List String)`: `none` when absent, otherwise its lines. -/
def open_persistent_file (modelId : String) : Option (List String) :=
  some [sessionHeader modelId]

/-- `write_persistent_file(contents)`, lines 46-50: append one line when
the file exists, otherwise do nothing (and raise nothing). -/
def write_persistent_file (contents : String) (fs : Option (List String)) :
    Option (List String) :=
  match fs with
  | none => none
  | some ls => some (ls ++ [contents])

/-- A sequence of `write_persistent_file` calls, in order. -/
def writeAll (ws : List String) (fs : Option (List String)) : Option (List String) :=
  ws.foldl (fun acc w => write_persistent_file w acc) fs

/-! Helper lemmas shared by several claims. -/

theorem writeAll_some (ws ls : List String) :
    writeAll ws (some ls) = some (ls ++ ws) := by
  induction ws generalizing ls with
  | nil => simp [writeAll]
  | cons w ws ih =>
    simp only [writeAll, List.foldl_cons] at ih ⊢
    rw [show write_persistent_file w (some ls) = some (ls ++ [w]) from rfl, ih]
    simp

/-! Example dataframes and columns used as concrete witnesses. -/

/-- A dataframe with two numeric non-identifier columns. -/
def exDf1 : DFrame :=
  ⟨[⟨"key", Dtype.object, [some 0]⟩, ⟨"input", Dtype.object, [some 0]⟩,
    ⟨"a", Dtype.float64, [some 1]⟩, ⟨"b", Dtype.int64, [some 2]⟩]⟩

/-- A dataframe whose only columns are the identifiers `key` and `input`. -/
def exDf9 : DFrame :=
  ⟨[⟨"key", Dtype.object, [some 0]⟩, ⟨"input", Dtype.object, [some 0]⟩]⟩

/-- A dataframe lacking the `key` column. -/
def exDf10 : DFrame :=
  ⟨[⟨"input", Dtype.object, [some 0]⟩, ⟨"a", Dtype.float64, [some 1]⟩]⟩

/-- C10: `stats` raises `KeyError` as soon as the dataframe lacks a `key`
column or lacks an `input` column: the unconditional
`dat.drop(["key", "input"], axis=1)` fails before any statistics are
produced. -/
theorem claim_C10 (df : DFrame)
    (h : "key" ∉ df.cols.map Column.name ∨ "input" ∉ df.cols.map Column.name) :
    stats df = Except.error TrackErr.keyError := by
  unfold stats
  rcases h with h | h <;> rw [if_neg] <;> tauto

/-- C10 witness: a concrete dataframe without a `key` column makes `stats`
raise `KeyError`. -/
theorem claim_C10_witness :
    ("key" ∉ exDf10.cols.map Column.name ∨ "input" ∉ exDf10.cols.map Column.name) ∧
      stats exDf10 = Except.error TrackErr.keyError :=
  ⟨by decide, claim_C10 exDf10 (by decide)⟩

/-- C9: with zero non-identifier columns, `check_types` returns zero
mismatched types and `correct_shape = True` for every metadata value: the
counting loop runs zero times and both shape conditions are false, so
control falls through to the success branch. -/
theorem claim_C9 (df : DFrame) (md : Metadata) (h : nonIdCols df = []) :
    check_types df md = Except.ok ⟨0, true⟩ := by
  simp [check_types, h, countMismatched, shapeCheck]

/-- C9 witness: a dataframe with only `key`/`input` columns and metadata
with an empty `Output Type` list and a nonsense `Output Shape` still
yields `correct_shape = True`. -/
theorem claim_C9_witness :
    nonIdCols exDf9 = [] ∧
      check_types exDf9 ⟨[], "Banana"⟩ = Except.ok ⟨0, true⟩ :=
  ⟨by decide, claim_C9 exDf9 ⟨[], "Banana"⟩ (by decide)⟩

/-- C3 counterexample: on a freshly constructed tracker (no `start_tracking`
call), the peak-memory query does not fail at all: `memory_usage_start`
was initialised to `0`, and `tracemalloc.get_traced_memory()` returns
`(0, 0)` when tracing is off, so `get_peak_memory` returns the value `0`.
This contradicts the claim that both queries fail with `NotStartedError`
(an error class that moreover does not exist in the module). -/
theorem claim_C3_cex : get_peak_memory RunTracker.init 0 = Except.ok 0 := rfl

/-- C3 amended: before `start_tracking`, the elapsed-time query fails, but
with a `TypeError` from subtracting `None` (no dedicated `NotStartedError`
exists), while the peak-memory query never fails: it returns the traced
peak minus the `0` baseline. -/
theorem claim_C3_amended (t : RunTracker) (h : t.time_start = none) :
    (∀ now : ℚ, elapsed_time t now = Except.error TrackErr.typeError) ∧
      (∀ peak : ℤ, get_peak_memory t peak = Except.ok (peak - t.memory_usage_start)) := by
  constructor
  · intro now
    simp [elapsed_time, h]
  · intro peak
    rfl

/-- C3 amended, witness: the freshly constructed tracker instantiates the
amended claim. -/
theorem claim_C3_amended_witness :
    RunTracker.init.time_start = none ∧
      ((∀ now : ℚ, elapsed_time RunTracker.init now = Except.error TrackErr.typeError) ∧
        (∀ peak : ℤ,
          get_peak_memory RunTracker.init peak =
            Except.ok (peak - RunTracker.init.memory_usage_start))) :=
  ⟨rfl, claim_C3_amended RunTracker.init rfl⟩

/-- C7 counterexample: for an empty input dataframe (0 rows, 132 bytes of
index overhead) and a 1-row output, `get_file_sizes` returns a value whose
average input row size is IEEE positive infinity; numpy float division by
a zero row count emits only a `RuntimeWarning`, it does not raise a
`ZeroDivisionError`-like exception. -/
theorem claim_C7_cex :
    (get_file_sizes 132 132 0 1).avg_input_size = PyFloat.posInf ∧
      (get_file_sizes 132 132 0 1).input_size = 132 / 1024 := by
  constructor
  · show npDivByLen (132 / 1024 : ℚ) 0 = PyFloat.posInf
    rw [npDivByLen, if_pos rfl, if_pos (by norm_num)]
  · rfl

/-- C7 amended: when a table has zero rows, the size-accounting step does
not fail; the per-row average for that table is IEEE positive infinity
(the byte size being positive), and a value is returned — the caller must
guard if finite averages are required. -/
theorem claim_C7_amended (inB outB : ℚ) (inL outL : ℕ)
    (hin : 0 < inB) (hout : 0 < outB) :
    (get_file_sizes inB outB 0 outL).avg_input_size = PyFloat.posInf ∧
      (get_file_sizes inB outB inL 0).avg_output_size = PyFloat.posInf := by
  constructor
  · show npDivByLen (inB / 1024) 0 = PyFloat.posInf
    rw [npDivByLen, if_pos rfl, if_pos (by positivity)]
  · show npDivByLen (outB / 1024) 0 = PyFloat.posInf
    rw [npDivByLen, if_pos rfl, if_pos (by positivity)]

/-- C7 amended, witness: concrete byte sizes and row counts. -/
theorem claim_C7_amended_witness :
    (0 : ℚ) < 132 ∧ (0 : ℚ) < 264 ∧
      ((get_file_sizes 132 264 0 5).avg_input_size = PyFloat.posInf ∧
        (get_file_sizes 132 264 5 0).avg_output_size = PyFloat.posInf) :=
  ⟨by norm_num, by norm_num, claim_C7_amended 132 264 5 5 (by norm_num) (by norm_num)⟩

/-- C8: while the session file is absent, `write_persistent_file` is a
silent no-op (no file appears, nothing is raised); once
`open_persistent_file` has created the file, a sequence of writes appends
exactly those lines in order after the header, so reading the file back
shows precisely the written lines. -/
theorem claim_C8 :
    (∀ contents : String, write_persistent_file contents none = none) ∧
      (∀ modelId : String, ∀ ws : List String,
        writeAll ws (open_persistent_file modelId) = some (sessionHeader modelId :: ws)) := by
  constructor
  · intro contents
    rfl
  · intro modelId ws
    rw [open_persistent_file, writeAll_some]
    simp

/-- A dataframe whose single non-identifier column `x` is entirely null. -/
def exDf6 : DFrame :=
  ⟨[⟨"key", Dtype.object, [some 0]⟩, ⟨"input", Dtype.object, [some 0]⟩,
    ⟨"x", Dtype.float64, [none]⟩]⟩

/-- C6 counterexample: on a dataframe whose non-identifier column has zero
non-null values, `stats` does not fail: it returns a statistics entry for
that column (pandas reports NaN mean/min/max/std, modelled `none`, and a
null mode). No `EmptyColumnError` exists in the module. -/
theorem claim_C6_cex :
    nonNullValues ⟨"x", Dtype.float64, [none]⟩ = [] ∧
      stats exDf6 = Except.ok [("x", ⟨none, none, none, none, none⟩)] := by
  constructor
  · rfl
  · rfl

/-- C6 amended: for every dataframe holding the `key` and `input` columns,
a non-identifier column with zero non-null values does not make `stats`
fail; the returned list contains an entry for that column whose mean,
mode, min, max and variance are all NaN/null (`none`). -/
theorem claim_C6_amended (df : DFrame) (c : Column)
    (hkey : "key" ∈ df.cols.map Column.name)
    (hinput : "input" ∈ df.cols.map Column.name)
    (hc : c ∈ nonIdCols df) (hnull : nonNullValues c = []) :
    ∃ l, stats df = Except.ok l ∧
      (c.name, (⟨none, none, none, none, none⟩ : ColStats)) ∈ l := by
  have hcs : colStats c = ⟨none, none, none, none, none⟩ := by
    simp [colStats, hnull, listMean, modeOpt, modeList, listMin, listMax]
  refine ⟨(nonIdCols df).map (fun c => (c.name, colStats c)), ?_, ?_⟩
  · rw [stats, if_pos ⟨hkey, hinput⟩]
  · rw [← hcs]
    exact List.mem_map_of_mem _ hc

/-- C6 amended, witness: the concrete all-null column of `exDf6`. -/
theorem claim_C6_amended_witness :
    ("key" ∈ exDf6.cols.map Column.name ∧ "input" ∈ exDf6.cols.map Column.name ∧
        (⟨"x", Dtype.float64, [none]⟩ : Column) ∈ nonIdCols exDf6 ∧
        nonNullValues ⟨"x", Dtype.float64, [none]⟩ = []) ∧
      ∃ l, stats exDf6 = Except.ok l ∧
        ("x", (⟨none, none, none, none, none⟩ : ColStats)) ∈ l :=
  ⟨⟨by decide, by decide, by decide, rfl⟩,
    claim_C6_amended exDf6 ⟨"x", Dtype.float64, [none]⟩ (by decide) (by decide)
      (by decide) rfl⟩

/-- With a numeric dtype, the `typeDict` lookup succeeds and returns the
canonical label. -/
theorem typeDict_numeric {d : Dtype} (h : d ≠ Dtype.object) :
    typeDict d = Except.ok (canonLabel d) := by
  cases d with
  | float64 => rfl
  | int64 => rfl
  | object => exact absurd rfl h

/-- When `metadata["Output Type"]` has head `t`, the indexing expression
`metadata["Output Type"][0]` evaluates to `t`. -/
theorem outputTypeHead_of_head {md : Metadata} {t : String}
    (ht : md.outputType.head? = some t) :
    outputTypeHead md = Except.ok t := by
  unfold outputTypeHead
  cases hmd : md.outputType with
  | nil => rw [hmd] at ht; simp at ht
  | cons a l => rw [hmd] at ht; simp at ht; rw [ht]

/-- The counting loop of `check_types` succeeds on all-numeric dtypes and
counts exactly the dtypes whose canonical label differs from the declared
output type. -/
theorem countMismatched_eq (dtys : List Dtype) (md : Metadata) (t : String) (acc : ℕ)
    (hnum : ∀ d ∈ dtys, d ≠ Dtype.object)
    (ht : md.outputType.head? = some t) :
    countMismatched dtys md acc =
      Except.ok (acc + dtys.countP (fun d => decide (canonLabel d ≠ t))) := by
  induction dtys generalizing acc with
  | nil => simp [countMismatched]
  | cons d rest ih =>
    have hd : d ≠ Dtype.object := hnum d (by simp)
    have hrest : ∀ x ∈ rest, x ≠ Dtype.object := fun x hx => hnum x (by simp [hx])
    rw [countMismatched, typeDict_numeric hd, outputTypeHead_of_head ht]
    show countMismatched rest md (if canonLabel d ≠ t then acc + 1 else acc) =
      Except.ok (acc + (d :: rest).countP (fun d => decide (canonLabel d ≠ t)))
    rw [ih _ hrest]
    by_cases hne : canonLabel d ≠ t
    · rw [if_pos hne, List.countP_cons_of_pos _ _ (by simpa using hne)]
      congr 1
      omega
    · rw [if_neg hne, List.countP_cons_of_neg _ _ (by simpa using hne)]

/-- C1: whenever every non-identifier column is numeric and the metadata
declares output type `t` (the first entry of the `Output Type` list),
`check_types` succeeds and its `mismatched_types` count is exactly the
number of non-identifier columns whose canonical label (`Float` for
`float64`, `Int` for `int64`) differs from `t`. -/
theorem claim_C1 (df : DFrame) (md : Metadata) (t : String)
    (hnum : ∀ c ∈ nonIdCols df, c.dtype ≠ Dtype.object)
    (ht : md.outputType.head? = some t) :
    ∃ r, check_types df md = Except.ok r ∧
      r.mismatchedTypes =
        (nonIdCols df).countP (fun c => decide (canonLabel c.dtype ≠ t)) := by
  have hnum' : ∀ d ∈ (nonIdCols df).map Column.dtype, d ≠ Dtype.object := by
    intro d hd
    obtain ⟨c, hc, rfl⟩ := List.mem_map.mp hd
    exact hnum c hc
  rw [check_types, countMismatched_eq _ md t 0 hnum' ht]
  refine ⟨_, rfl, ?_⟩
  show 0 + ((nonIdCols df).map Column.dtype).countP (fun d => decide (canonLabel d ≠ t)) =
    (nonIdCols df).countP (fun c => decide (canonLabel c.dtype ≠ t))
  rw [List.countP_map, Nat.zero_add]
  rfl

/-- C1 witness: two numeric columns (`float64`, `int64`) against declared
output type `Float`: exactly the `int64` column mismatches. -/
theorem claim_C1_witness :
    ((∀ c ∈ nonIdCols exDf1, c.dtype ≠ Dtype.object) ∧
        (⟨["Float"], "List"⟩ : Metadata).outputType.head? = some "Float") ∧
      ∃ r, check_types exDf1 ⟨["Float"], "List"⟩ = Except.ok r ∧
        r.mismatchedTypes =
          (nonIdCols exDf1).countP (fun c => decide (canonLabel c.dtype ≠ "Float")) :=
  ⟨⟨by decide, by decide⟩,
    claim_C1 exDf1 ⟨["Float"], "List"⟩ "Float" (by decide) (by decide)⟩

/-- The shape branch, restated: with at least one non-identifier column,
the result is `true` exactly when the declared shape matches the column
count (`List` for several columns, `Single` for one). -/
theorem shapeCheck_iff (n : ℕ) (shape : String) (h : 1 ≤ n) :
    (shapeCheck n shape = true ↔
      if 1 < n then shape = "List" else shape = "Single") := by
  rcases Nat.lt_or_ge 1 n with h1 | h1
  · have hne : n ≠ 1 := Nat.ne_of_gt h1
    rw [if_pos h1]
    unfold shapeCheck
    by_cases hs : shape = "List"
    · rw [if_neg (by tauto), if_neg (by tauto)]
      simp [hs]
    · rw [if_pos ⟨h1, hs⟩]
      simp [hs]
  · have hn1 : n = 1 := Nat.le_antisymm h1 h
    subst hn1
    rw [if_neg (by omega)]
    unfold shapeCheck
    by_cases hs : shape = "Single"
    · rw [if_neg (by simp), if_neg (by tauto)]
      simp [hs]
    · rw [if_neg (by simp), if_pos ⟨rfl, hs⟩]
      simp [hs]

/-- C2: whenever at least one non-identifier column exists (and the type
loop can run: numeric columns, nonempty `Output Type`), `check_types`
succeeds and `correct_shape` is `true` iff the declared `Output Shape` is
`List` when more than one non-identifier column exists, and `Single` when
exactly one does. -/
theorem claim_C2 (df : DFrame) (md : Metadata) (t : String)
    (hnum : ∀ c ∈ nonIdCols df, c.dtype ≠ Dtype.object)
    (ht : md.outputType.head? = some t)
    (hcols : 1 ≤ (nonIdCols df).length) :
    ∃ r, check_types df md = Except.ok r ∧
      (r.correctShape = true ↔
        if 1 < (nonIdCols df).length then md.outputShape = "List"
        else md.outputShape = "Single") := by
  have hnum' : ∀ d ∈ (nonIdCols df).map Column.dtype, d ≠ Dtype.object := by
    intro d hd
    obtain ⟨c, hc, rfl⟩ := List.mem_map.mp hd
    exact hnum c hc
  rw [check_types, countMismatched_eq _ md t 0 hnum' ht]
  refine ⟨_, rfl, ?_⟩
  rw [List.length_map]
  exact shapeCheck_iff _ md.outputShape hcols

/-- A dataframe with exactly one (float) non-identifier column. -/
def exDf2 : DFrame :=
  ⟨[⟨"key", Dtype.object, [some 0]⟩, ⟨"input", Dtype.object, [some 0]⟩,
    ⟨"x", Dtype.float64, [some 1]⟩]⟩

/-- C2 witness: one `float64` column with `Output Shape: "Single"` gives
`correct_shape = true` (the iff holds at a concrete instance). -/
theorem claim_C2_witness :
    ((∀ c ∈ nonIdCols exDf2, c.dtype ≠ Dtype.object) ∧
        (⟨["Float"], "Single"⟩ : Metadata).outputType.head? = some "Float" ∧
        1 ≤ (nonIdCols exDf2).length) ∧
      ∃ r, check_types exDf2 ⟨["Float"], "Single"⟩ = Except.ok r ∧
        (r.correctShape = true ↔
          if 1 < (nonIdCols exDf2).length then "Single" = "List"
          else "Single" = "Single") :=
  ⟨⟨by decide, by decide, by decide⟩,
    claim_C2 exDf2 ⟨["Float"], "Single"⟩ "Float" (by decide) (by decide) (by decide)⟩

/-- Membership in `Series.mode()`: a value appears there exactly when it
occurs in the data and no value occurs more often. -/
theorem mem_modeList {xs : List ℚ} {v : ℚ} :
    v ∈ modeList xs ↔ v ∈ xs ∧ ∀ w ∈ xs, xs.count w ≤ xs.count v := by
  simp [modeList, List.mem_filter, List.all_eq_true, List.mem_dedup]

/-- The mode list never repeats a value. -/
theorem nodup_modeList (xs : List ℚ) : (modeList xs).Nodup :=
  (List.nodup_dedup xs).filter _

/-- A duplicate-free list whose members all equal `v`, with `v` a member,
is the singleton `[v]`. -/
theorem nodup_all_eq_singleton {l : List ℚ} {v : ℚ} (hn : l.Nodup) (hv : v ∈ l)
    (hall : ∀ u ∈ l, u = v) : l = [v] := by
  cases l with
  | nil => cases hv
  | cons a l' =>
    have ha : a = v := hall a (by simp)
    subst ha
    cases l' with
    | nil => rfl
    | cons b l'' =>
      have hb : b = a := hall b (by simp)
      have := (List.nodup_cons.mp hn).1
      exact absurd (by simp [hb]) this

/-- C4: the summarizer reports a column's mode as the value of strictly
highest frequency among the non-null cells when that value is unique, and
`None` whenever two distinct values tie for the highest frequency
(`len(dat[column].mode()) == 1` is the reported condition). -/
theorem claim_C4 (c : Column) :
    (∀ v, v ∈ nonNullValues c →
        (∀ w ∈ nonNullValues c, w ≠ v →
          (nonNullValues c).count w < (nonNullValues c).count v) →
        (colStats c).mode = some v) ∧
      (∀ v w, v ∈ nonNullValues c → w ∈ nonNullValues c → v ≠ w →
        (∀ u ∈ nonNullValues c, (nonNullValues c).count u ≤ (nonNullValues c).count v) →
        (∀ u ∈ nonNullValues c, (nonNullValues c).count u ≤ (nonNullValues c).count w) →
        (colStats c).mode = none) := by
  constructor
  · intro v hv hstrict
    have hml : modeList (nonNullValues c) = [v] := by
      refine nodup_all_eq_singleton (nodup_modeList _) ?_ ?_
      · refine mem_modeList.mpr ⟨hv, fun w hw => ?_⟩
        by_cases hwv : w = v
        · subst hwv
          exact le_refl _
        · exact le_of_lt (hstrict w hw hwv)
      · intro u hu
        obtain ⟨huxs, humax⟩ := mem_modeList.mp hu
        by_contra hne
        have h1 := hstrict u huxs hne
        have h2 := humax v hv
        omega
    show modeOpt (nonNullValues c) = some v
    rw [modeOpt, hml]
  · intro v w hv hw hvw hmaxv hmaxw
    have hv' : v ∈ modeList (nonNullValues c) := mem_modeList.mpr ⟨hv, hmaxv⟩
    have hw' : w ∈ modeList (nonNullValues c) := mem_modeList.mpr ⟨hw, hmaxw⟩
    show modeOpt (nonNullValues c) = none
    rcases hml : modeList (nonNullValues c) with _ | ⟨a, _ | ⟨b, l⟩⟩
    · rw [hml] at hv'
      cases hv'
    · rw [hml] at hv' hw'
      simp at hv' hw'
      exact absurd (hv'.trans hw'.symm) hvw
    · rw [modeOpt, hml]

/-- A column holding the values {1, 1, 2}: unique mode 1. -/
def exCol4a : Column :=
  ⟨"x", Dtype.int64, [some 1, some 1, some 2]⟩

/-- A column holding the values {1, 1, 2, 2}: two values tie for the mode. -/
def exCol4b : Column :=
  ⟨"x", Dtype.int64, [some 1, some 1, some 2, some 2]⟩

/-- C4 witness: for {1,1,2} the mode is 1; for {1,1,2,2} it is `None`. -/
theorem claim_C4_witness :
    ((1 : ℚ) ∈ nonNullValues exCol4a ∧
        (∀ w ∈ nonNullValues exCol4a, w ≠ 1 →
          (nonNullValues exCol4a).count w < (nonNullValues exCol4a).count 1)) ∧
      (colStats exCol4a).mode = some 1 ∧ (colStats exCol4b).mode = none :=
  ⟨⟨by decide, by decide⟩,
    (claim_C4 exCol4a).1 1 (by decide) (by decide),
    (claim_C4 exCol4b).2 1 2 (by decide) (by decide) (by decide) (by decide) (by decide)⟩

/-- The spec's standard-deviation example column, holding
[2, 4, 4, 4, 5, 5, 7, 9]. -/
def exCol5 : Column :=
  ⟨"x", Dtype.float64,
    [some 2, some 4, some 4, some 4, some 5, some 5, some 7, some 9]⟩

/-- The sample variance of at least two values is nonnegative. -/
theorem sampleVariance_nonneg (xs : List ℚ) (h : 2 ≤ xs.length) :
    0 ≤ sampleVariance xs := by
  unfold sampleVariance
  apply div_nonneg
  · apply List.sum_nonneg
    intro x hx
    obtain ⟨y, hy, rfl⟩ := List.mem_map.mp hx
    positivity
  · have h2 : (2 : ℚ) ≤ xs.length := by exact_mod_cast h
    linarith

/-- C5: for a column with at least two non-null values, the summarizer's
std is the sample standard deviation with N−1 denominator over the
non-null values: it is the nonnegative real whose square is the sum of
squared deviations from the mean divided by N−1. For the example values
[2, 4, 4, 4, 5, 5, 7, 9] the sample variance is 32/7 and the std lies in
[2.138, 2.139). -/
theorem claim_C5 :
    (∀ c : Column, 2 ≤ (nonNullValues c).length →
        ∃ s : ℝ, colStd c = some s ∧ 0 ≤ s ∧
          (s ^ 2 : ℝ) = (sampleVariance (nonNullValues c) : ℝ) ∧
          sampleVariance (nonNullValues c) =
            ((nonNullValues c).map
                (fun x =>
                  (x - (nonNullValues c).sum / (nonNullValues c).length) ^ 2)).sum /
              (((nonNullValues c).length : ℚ) - 1)) ∧
      sampleVariance (nonNullValues exCol5) = 32 / 7 ∧
      ∃ s : ℝ, colStd exCol5 = some s ∧
        (2138 / 1000 : ℝ) ≤ s ∧ s < (2139 / 1000 : ℝ) := by
  have hgen : ∀ c : Column, 2 ≤ (nonNullValues c).length →
      ∃ s : ℝ, colStd c = some s ∧ 0 ≤ s ∧
        (s ^ 2 : ℝ) = (sampleVariance (nonNullValues c) : ℝ) ∧
        sampleVariance (nonNullValues c) =
          ((nonNullValues c).map
              (fun x =>
                (x - (nonNullValues c).sum / (nonNullValues c).length) ^ 2)).sum /
            (((nonNullValues c).length : ℚ) - 1) := by
    intro c hc
    refine ⟨Real.sqrt ((sampleVariance (nonNullValues c) : ℚ) : ℝ), ?_,
      Real.sqrt_nonneg _, ?_, rfl⟩
    · have hvar : (colStats c).var = some (sampleVariance (nonNullValues c)) := by
        show (if 2 ≤ (nonNullValues c).length then
            some (sampleVariance (nonNullValues c)) else none) =
          some (sampleVariance (nonNullValues c))
        rw [if_pos hc]
      rw [colStd, hvar]
      rfl
    · rw [Real.sq_sqrt]
      exact_mod_cast sampleVariance_nonneg _ hc
  have hlen : 2 ≤ (nonNullValues exCol5).length := by decide
  have hlist : nonNullValues exCol5 = [2, 4, 4, 4, 5, 5, 7, 9] := rfl
  have hvar : sampleVariance (nonNullValues exCol5) = 32 / 7 := by
    rw [hlist]
    norm_num [sampleVariance]
  refine ⟨hgen, hvar, ?_⟩
  obtain ⟨s, hs_eq, hs_nonneg, hs_sq, -⟩ := hgen exCol5 hlen
  have hsq : s ^ 2 = (32 / 7 : ℝ) := by
    rw [hs_sq, hvar]
    norm_num
  refine ⟨s, hs_eq, ?_, ?_⟩
  · nlinarith [hsq, hs_nonneg]
  · nlinarith [hsq, hs_nonneg]

/-- C5 witness: the example column satisfies the hypothesis and the
general std characterisation. -/
theorem claim_C5_witness :
    2 ≤ (nonNullValues exCol5).length ∧
      ∃ s : ℝ, colStd exCol5 = some s ∧ 0 ≤ s ∧
        (s ^ 2 : ℝ) = (sampleVariance (nonNullValues exCol5) : ℝ) ∧
        sampleVariance (nonNullValues exCol5) =
          ((nonNullValues exCol5).map
              (fun x =>
                (x - (nonNullValues exCol5).sum / (nonNullValues exCol5).length) ^ 2)).sum /
            (((nonNullValues exCol5).length : ℚ) - 1) :=
  ⟨by decide, claim_C5.1 exCol5 (by decide)⟩

end Tracking
